import Mathlib

/-!
Verification development for the droplet sorted-partition ingest pipeline.

The definitions below are a shallow embedding of the Rust sources:
  * `src/droplet-core/src/grid_sample.rs`   (SampleKey, GridRow, GridRows)
  * `src/droplet-core/src/window_heap.rs`   (WindowHeap)
  * `src/droplet-core/src/tool.rs`          (is_keys_equal)
  * `src/droplet-sinker/src/grid_sinker.rs` (GridSinker)
  * `src/droplet-server/src/sample_saver.rs`, `request_handler.rs`

`u64`/`u32` values are modelled as `Nat`: the embedded code never performs
arithmetic that can overflow (keys are only compared; the partition-index
arithmetic stays far below `2^64`), so no `% 2^w` reductions arise.
`f32` cell payloads are modelled by their bit patterns (`List Nat`); no
embedded operation computes with float values, it only copies them.
-/

namespace Droplet

/-- Sample key: `(timestamp, user_id, item_id, request_id)`, compared
lexicographically (grid_sample.rs, `SampleKey` and its `Ord` impl). -/
structure SampleKey where
  timestamp : Nat
  user_id : Nat
  item_id : Nat
  request_id : Nat
deriving DecidableEq, Repr

/-- Cell of a `GridBuffer`: either a `u64` list cell or an `f32` list cell
(the external `gridbuffer` crate's `GridCell`, spec section 6). The `f32`
payload is carried as raw bit patterns since the embedded code only copies
it. -/
inductive GridCell where
  | u64Cell (values : List Nat)
  | f32Cell (values : List Nat)
deriving DecidableEq, Repr

/-- Modelled from the spec: the external `gridbuffer` crate's `GridBuffer`
(spec section 6 contract). A buffer has a column-id vector, a column-id
hash (computed by the external crate; carried here as data), and a cell
store addressed by `(row, col)`; a position may hold no cell. -/
structure GridBuffer where
  colIds : List Nat
  colIdsHash : Nat
  cells : List (List (Option GridCell))
deriving DecidableEq, Repr

/-- Modelled from the spec: `GridBuffer::new()` - the empty buffer
(no columns, no rows; hash of the empty column list taken as 0). -/
def GridBuffer.new : GridBuffer :=
  { colIds := [], colIdsHash := 0, cells := [] }

/-- Modelled from the spec: `GridBuffer::num_rows()`. -/
def numRows (gb : GridBuffer) : Nat := gb.cells.length

/-- Modelled from the spec: `GridBuffer::num_cols()`. -/
def numCols (gb : GridBuffer) : Nat := gb.colIds.length

/-- Modelled from the spec: `GridBuffer::get_cell(row, col)`. -/
def getCell (gb : GridBuffer) (row col : Nat) : Option GridCell :=
  match gb.cells[row]? with
  | none => none
  | some r =>
    match r[col]? with
    | none => none
    | some c => c

/-- Modelled from the spec: `GridBuffer::get_u64(row, col)` - `some` only
when the addressed cell exists, is a `u64` cell and is non-empty. -/
def getU64 (gb : GridBuffer) (row col : Nat) : Option Nat :=
  match getCell gb row col with
  | some (GridCell.u64Cell (v :: _)) => some v
  | _ => none

/-- Modelled from the spec: `GridBuffer::get_u64_values(row, col)`
(empty slice when the cell is absent or not a `u64` cell). -/
def getU64Values (gb : GridBuffer) (row col : Nat) : List Nat :=
  match getCell gb row col with
  | some (GridCell.u64Cell vs) => vs
  | _ => []

/-- Modelled from the spec: `GridBuffer::get_f32_values(row, col)`. -/
def getF32Values (gb : GridBuffer) (row col : Nat) : List Nat :=
  match getCell gb row col with
  | some (GridCell.f32Cell vs) => vs
  | _ => []

/-- `GridRow::get_sample_key` (grid_sample.rs lines 162-171) and equally
`GridSample::get_sample_key` (lines 334-341): each of the four key columns
is read with `get_u64(row, i).unwrap_or(0)`, so a missing or non-u64 cell
contributes `0`. -/
def getSampleKey (gb : GridBuffer) (row : Nat) : SampleKey :=
  { timestamp := (getU64 gb row 0).getD 0
    user_id := (getU64 gb row 1).getD 0
    item_id := (getU64 gb row 2).getD 0
    request_id := (getU64 gb row 3).getD 0 }

/-- Field projection of a `SampleKey` by column position 0..3; positions
beyond 3 map to the last field. -/
def keyField (k : SampleKey) : Nat → Nat
  | 0 => k.timestamp
  | 1 => k.user_id
  | 2 => k.item_id
  | _ => k.request_id

/-- `is_keys_equal` (tool.rs lines 60-83). The source compares in SIMD
chunks of 4; on the inputs the sort path feeds it (length-4 slices) this
equals plain list equality, which is how it is embedded. -/
def isKeysEqual (a b : List Nat) : Bool := a = b

/-- `SampleKey::get_sample_key_ids` (grid_sample.rs lines 49-51): the fixed
global ids of the four key columns. -/
def sampleKeyIds : List Nat := [2, 4, 5, 6]

/-- `SampleKey::is_sample_key_ids` (grid_sample.rs lines 68-70). -/
def isSampleKeyIds (colIds : List Nat) : Bool := isKeysEqual sampleKeyIds colIds

/-- `GridRow::is_valid_sample` (grid_sample.rs lines 152-160): at least 4
columns and the first four column ids equal the sample-key ids. -/
def isValidSample (gb : GridBuffer) : Bool :=
  if numCols gb < 4 then false else isSampleKeyIds (gb.colIds.take 4)

/-- Timestamps of all rows of a buffer (helper for stating results). -/
def rowTimestamps (gb : GridBuffer) : List Nat :=
  (List.range (numRows gb)).map (fun i => (getSampleKey gb i).timestamp)

/-- A single-row sample buffer with the mandated key columns, timestamp
`t` and fixed remaining key fields (helper for concrete runs). -/
def mkKeyBuf (t : Nat) : GridBuffer :=
  { colIds := sampleKeyIds
    colIdsHash := 42
    cells := [[some (GridCell.u64Cell [t]), some (GridCell.u64Cell [7]),
               some (GridCell.u64Cell [8]), some (GridCell.u64Cell [9])]] }

/-- Entry of the `WindowHeap`'s `BinaryHeap<Reverse<(GridRow, usize)>>`
(window_heap.rs line 40): the row's key, the slot index in `elements`, and
the row index inside the slot's buffer. The key is recorded at insertion
time; it stays stable because a slot's buffer is only replaced once its
heap entries are exhausted. `origin` is ghost instrumentation: the serial
number of the `push` call whose buffer the entry was created from; it is
never read by the transition functions and only serves to state the
reference-liveness invariant. -/
structure HeapEntry where
  key : SampleKey
  slot : Nat
  row : Nat
  origin : Nat
deriving DecidableEq, Repr

/-- Lexicographic order on `Nat` lists (Bool-valued), used for the heap
order. -/
def lexLe : List Nat → List Nat → Bool
  | [], _ => true
  | _ :: _, [] => false
  | a :: as, b :: bs => if a < b then true else if b < a then false else lexLe as bs

/-- The comparison used by the Rust heap: `Reverse<(GridRow, usize)>` pops
the minimum of `(SampleKey, slot_index)` - `GridRow`'s `Ord` compares keys
lexicographically (grid_sample.rs lines 82-96, 128-132), ties broken by
the slot index. The Rust heap leaves the order of entries equal in both
components unspecified; the model fixes the row index as a final
tie-break, which coincides with the source on all runs whose keys are
pairwise distinct per slot. -/
def entryLe (a b : HeapEntry) : Bool :=
  lexLe [a.key.timestamp, a.key.user_id, a.key.item_id, a.key.request_id, a.slot, a.row]
        [b.key.timestamp, b.key.user_id, b.key.item_id, b.key.request_id, b.slot, b.row]

/-- Insertion into the sorted-list model of the binary heap. The list is
kept sorted by `entryLe`, so popping the minimum is taking the head. -/
def heapInsert (e : HeapEntry) : List HeapEntry → List HeapEntry
  | [] => [e]
  | x :: xs => if entryLe x e then x :: heapInsert e xs else e :: x :: xs

/-- A `GridRow` held in the output staging list `gridrows`
(window_heap.rs line 69, grid_sample.rs lines 101-110): in the heap's
context the raw `*const GridBuffer` points at a slot of the `elements`
vector, so the reference is `(slot, row)` resolved against the CURRENT
slot contents at materialization time. `origin` is the same ghost
instrumentation as in `HeapEntry`. -/
structure StagedRow where
  slot : Nat
  row : Nat
  origin : Nat
deriving DecidableEq, Repr

/-- `GridRows::to_gridbuffer` (grid_sample.rs lines 236-274), resolved
against the current `elements` vector: empty stage gives
`GridBuffer::new()`; otherwise the output takes the column ids and hash of
the first staged row's (current) buffer, and for every staged row and
column copies the `u64`/`f32` values of the addressed cell (nothing is
written for an absent cell). -/
def materialize (elements : List GridBuffer) (staged : List StagedRow) : GridBuffer :=
  match staged with
  | [] => GridBuffer.new
  | fr :: _ =>
    let fb := (elements[fr.slot]?).getD GridBuffer.new
    { colIds := fb.colIds
      colIdsHash := fb.colIdsHash
      cells := staged.map (fun sr =>
        let b := (elements[sr.slot]?).getD GridBuffer.new
        (List.range (numCols fb)).map (fun j =>
          match getCell b sr.row j with
          | some (GridCell.u64Cell _) => some (GridCell.u64Cell (getU64Values b sr.row j))
          | some (GridCell.f32Cell _) => some (GridCell.f32Cell (getF32Values b sr.row j))
          | none => none)) }

/-- The mutable core of a `WindowHeap` that the overflow loop updates:
`elements` (the slot vector), `num_rows_left`, the staging list
`gridrows` and the finished outputs `out_gridbuffers` (in production
order; the Rust `Vec` pushes at the back). `elemOrigins` is ghost: the
`push` serial number of the buffer currently stored in each slot. -/
structure WHCore where
  elements : List GridBuffer
  elemOrigins : List Nat
  numRowsLeft : List Nat
  gridrows : List StagedRow
  outGridbuffers : List GridBuffer
deriving DecidableEq, Repr

/-- Store `gb` into slot `slot` (with ghost origin) and reset the slot's
`num_rows_left`, as done at both replacement sites of the overflow loop
(window_heap.rs lines 170-171 and 177-178). -/
def replaceSlot (core : WHCore) (slot : Nat) (gb : GridBuffer) (origin : Nat) : WHCore :=
  { core with
    elements := core.elements.set slot gb
    elemOrigins := core.elemOrigins.set slot origin
    numRowsLeft := core.numRowsLeft.set slot (numRows gb) }

/-- Pop of one heap minimum into the staging list with flush at
`batch_size` (window_heap.rs lines 158-166): append the popped row to
`gridrows`; when the stage reaches `batch_size`, materialize into
`out_gridbuffers` and clear the stage. Materialization reads the slot
vector as it is at that moment. -/
def stageEntry (batchSize : Nat) (e : HeapEntry) (core : WHCore) : WHCore :=
  let staged := core.gridrows ++ [{ slot := e.slot, row := e.row, origin := e.origin }]
  if batchSize ≤ staged.length then
    { core with
      gridrows := []
      outGridbuffers := core.outGridbuffers ++ [materialize core.elements staged] }
  else
    { core with gridrows := staged }

/-- The overflow branch of `WindowHeap::push` (window_heap.rs lines
156-184): pop heap minima, staging each (with flush at `batch_size`);
after each pop check the popped slot's `num_rows_left` - on the safety
branch (already 0) or when the decrement reaches 0, store the new buffer
in that slot and stop. If the heap empties first, the loop ends and the
new buffer is dropped; the source never inserts heap entries for the new
buffer in this branch. Returns the remaining heap and the updated core. -/
def overflowLoop (gb : GridBuffer) (origin batchSize : Nat) :
    List HeapEntry → WHCore → List HeapEntry × WHCore
  | [], core => ([], core)
  | e :: rest, core =>
    let core1 := stageEntry batchSize e core
    if (core1.numRowsLeft[e.slot]?).getD 0 = 0 then
      (rest, replaceSlot core1 e.slot gb origin)
    else
      let core2 := { core1 with
        numRowsLeft := core1.numRowsLeft.set e.slot (((core1.numRowsLeft[e.slot]?).getD 0) - 1) }
      if (core2.numRowsLeft[e.slot]?).getD 0 = 0 then
        (rest, replaceSlot core2 e.slot gb origin)
      else
        overflowLoop gb origin batchSize rest core2

/-- The `WindowHeap` (window_heap.rs lines 32-95). `availablePositions`
models the free-position stack; the Rust `Vec` built by
`(0..window_size).rev().collect()` pops from the back, so the model keeps
the next position to hand out at the head: `[0, 1, ..., W-1]`.
`pushCount` is ghost: the number of `push` calls so far, used to assign
origin serial numbers. -/
structure WindowHeap where
  windowSize : Nat
  heapSize : Nat
  heap : List HeapEntry
  availablePositions : List Nat
  batchSize : Nat
  core : WHCore
  colIds : List Nat
  colIdsHash : Nat
  pushCount : Nat
deriving DecidableEq, Repr

/-- `WindowHeap::new(window_size, batch_size)` (window_heap.rs lines
79-95). -/
def WindowHeap.new (windowSize batchSize : Nat) : WindowHeap :=
  { windowSize := windowSize
    heapSize := windowSize * batchSize
    heap := []
    availablePositions := List.range windowSize
    batchSize := batchSize
    core :=
      { elements := []
        elemOrigins := List.replicate windowSize 0
        numRowsLeft := List.replicate windowSize 0
        gridrows := []
        outGridbuffers := [] }
    colIds := []
    colIdsHash := 0
    pushCount := 0 }

/-- Insert one heap entry per row of `gb` stored at `slot`
(window_heap.rs lines 149-152). -/
def insertRows (gb : GridBuffer) (slot origin : Nat) (heap : List HeapEntry) :
    List HeapEntry :=
  (List.range (numRows gb)).foldl
    (fun h i => heapInsert { key := getSampleKey gb i, slot := slot, row := i, origin := origin } h) heap

/-- `WindowHeap::push` (window_heap.rs lines 117-186). Returns the state
after the call and `some errorMessage` exactly when the source returns
`Err`. Step by step: capture `col_ids`/`col_ids_hash` when the captured
`col_ids` is empty; bail on hash mismatch; otherwise pop a free position
(storing the buffer there and inserting one heap entry per row) or, with
no free position, run the overflow loop. -/
def push (wh0 : WindowHeap) (gb : GridBuffer) : WindowHeap × Option String :=
  let wh :=
    if wh0.colIds = [] then
      { wh0 with colIds := gb.colIds, colIdsHash := gb.colIdsHash }
    else wh0
  if wh.colIdsHash ≠ gb.colIdsHash then
    (wh, some "The col_ids is not same")
  else
    let origin := wh.pushCount + 1
    let wh := { wh with pushCount := wh.pushCount + 1 }
    match wh.availablePositions with
    | index :: restAvail =>
      let wh := { wh with availablePositions := restAvail }
      if index < wh.core.elements.length then
        let core := { wh.core with elements := wh.core.elements.set index gb }
        ({ wh with
            core := { core with
              elemOrigins := core.elemOrigins.set index origin
              numRowsLeft := core.numRowsLeft.set index (numRows gb) }
            heap := insertRows gb index origin wh.heap }, none)
      else if index = wh.core.elements.length then
        let core := { wh.core with elements := wh.core.elements ++ [gb] }
        ({ wh with
            core := { core with
              elemOrigins := core.elemOrigins.set index origin
              numRowsLeft := core.numRowsLeft.set index (numRows gb) }
            heap := insertRows gb index origin wh.heap }, none)
      else
        (wh, some "The index is out of bounds")
    | [] =>
      let p := overflowLoop gb origin wh.batchSize wh.heap wh.core
      ({ wh with heap := p.1, core := p.2 }, none)

/-- `WindowHeap::get_out_gridbuffer` (window_heap.rs lines 188-190):
`self.out_gridbuffers.pop()`, i.e. the LAST (most recently produced)
pending output is removed and returned. -/
def getOutGridbuffer (wh : WindowHeap) : Option GridBuffer × WindowHeap :=
  match wh.core.outGridbuffers.getLast? with
  | none => (none, wh)
  | some gb =>
    (some gb, { wh with core := { wh.core with outGridbuffers := wh.core.outGridbuffers.dropLast } })

/-- Push a list of buffers in order, ignoring per-call errors (helper for
concrete runs; every run used below is error-free). -/
def pushList (wh : WindowHeap) (gbs : List GridBuffer) : WindowHeap :=
  gbs.foldl (fun w g => (push w g).1) wh

/-- Modelled from the spec: `WindowHeap::process_remain_data` is invoked
by `sample_saver.rs` (lines 344 and 487) but its definition is absent
from `window_heap.rs`; the body follows the spec's drain contract
(section 4.1): repeatedly pop heap minima into the stage, flushing
whenever the stage reaches `batch_size` - the loop part. -/
def drainHeapLoop (batchSize : Nat) : List HeapEntry → WHCore → WHCore
  | [], core => core
  | e :: rest, core => drainHeapLoop batchSize rest (stageEntry batchSize e core)

/-- Modelled from the spec: `WindowHeap::process_remain_data`, the drain
operation (spec section 4.1): pop all heap minima into the stage with
flushes at `batch_size`, then emit one final shorter batch if the stage
is non-empty, leaving the heap empty. -/
def processRemainData (wh : WindowHeap) : WindowHeap :=
  let core := drainHeapLoop wh.batchSize wh.heap wh.core
  let core :=
    if core.gridrows.length = 0 then core
    else
      { core with
        gridrows := []
        outGridbuffers := core.outGridbuffers ++ [materialize core.elements core.gridrows] }
  { wh with heap := [], core := core }

/-- Observed sequence of a caller's `while let Some(gb) =
heap.get_out_gridbuffer()` loop over a pending-output list: repeatedly
remove and yield the last element, as `Vec::pop` does. -/
def popObserved (l : List GridBuffer) : List GridBuffer :=
  match h : l.getLast? with
  | none => []
  | some x => x :: popObserved l.dropLast
termination_by l.length
decreasing_by
  have hne : l ≠ [] := by intro he; rw [he] at h; simp at h
  have hp : 0 < l.length := List.length_pos.mpr hne
  simp only [List.length_dropLast]
  omega

/-- The seconds-since-midnight function of the claim's and the spec's
formula (`seconds_since_midnight_utc`): plain modulo 86400. It agrees
with the code path (`i64` cast plus chrono) exactly for timestamps within
chrono's datetime range; the code path itself is embedded below. -/
def numSecondsFromMidnight (ts : Nat) : Nat := ts % 86400

/-- The `timestamp as i64` cast of grid_sinker.rs line 114: a `u64` value
reinterpreted as `i64` wraps, so values at or above `2^63` come out as
negatives. The `% 2^64` is the identity on genuine `u64` values. -/
def i64OfU64 (ts : Nat) : Int :=
  if ts % 2 ^ 64 < 2 ^ 63 then ((ts % 2 ^ 64 : Nat) : Int)
  else ((ts % 2 ^ 64 : Nat) : Int) - 2 ^ 64

/-- Unix timestamp of chrono's `NaiveDateTime::MIN`
(-262144-01-01T00:00:00 in the proleptic Gregorian calendar). -/
def chronoMinTimestamp : Int := -8334632851200

/-- Unix timestamp of chrono's `NaiveDateTime::MAX`
(262143-12-31T23:59:59). -/
def chronoMaxTimestamp : Int := 8210298412799

/-- `NaiveDateTime::from_timestamp_opt(secs, 0)` followed by
`num_seconds_from_midnight` (grid_sinker.rs lines 114-116): `none` for
seconds outside chrono's datetime range, otherwise the Euclidean
remainder modulo 86400 (chrono days run midnight to midnight also for
negative timestamps). -/
def fromTimestampSecondsFromMidnight (secs : Int) : Option Nat :=
  if chronoMinTimestamp ≤ secs ∧ secs ≤ chronoMaxTimestamp then
    some (secs % 86400).toNat
  else none

/-- `GridSinker::get_partition_index_by_timestamp` (grid_sinker.rs lines
103-122): error on an empty buffer; row 0's key timestamp is cast to
`i64` and converted by `NaiveDateTime::from_timestamp_opt` (error when out
of chrono's range - modelled as `none`); then
`time_span = 86400 / P` with truncating integer division and the result
is `seconds_in_day / time_span`. A zero time span (P = 0 or P > 86400)
makes the source divide by zero (a panic), also modelled as `none`. -/
def getPartitionIndexByTimestamp (gb : GridBuffer) (P : Nat) : Option Nat :=
  if numRows gb = 0 then none
  else
    match fromTimestampSecondsFromMidnight (i64OfU64 (getSampleKey gb 0).timestamp) with
    | none => none
    | some s =>
      if 86400 / P = 0 then none
      else some (s / (86400 / P))

/-- One RPC emitted by the sinker loop towards the storage node
(grid_sinker.rs `run`); `heartbeat` is omitted, it carries no buffer and
no partition. -/
inductive SinkEvent where
  | start (partitionIndex : Nat)
  | sink (partitionIndex : Nat) (gb : GridBuffer)
  | finish (partitionIndex : Nat)
deriving DecidableEq, Repr

/-- The inner `while let Some(gridbuffer) = self.window_heap.get_out_gridbuffer()`
loop of `GridSinker::run` (grid_sinker.rs lines 209-256), applied to the
sequence of popped output buffers: rows > 0 buffers get a partition index;
on a change a `finish`/`start` pair is emitted (endpoint re-dialing has no
observable effect on the event trace); the buffer is then sent and the
current partition index updated. Returns the final index and the events. -/
def sinkerSendLoop (P : Nat) : List GridBuffer → Nat → Except String (Nat × List SinkEvent)
  | [], pidx => Except.ok (pidx, [])
  | gb :: rest, pidx =>
    if 0 < numRows gb then
      match getPartitionIndexByTimestamp gb P with
      | none => Except.error "Failed to get partition index"
      | some cpidx =>
        let evs1 := if cpidx ≠ pidx then [SinkEvent.finish pidx, SinkEvent.start cpidx] else []
        match sinkerSendLoop P rest cpidx with
        | Except.ok (pf, evs2) => Except.ok (pf, evs1 ++ [SinkEvent.sink cpidx gb] ++ evs2)
        | Except.error e => Except.error e
    else sinkerSendLoop P rest pidx

/-- The `for gridbuffer in gridbuffers` loop of `GridSinker::run`
(grid_sinker.rs lines 205-258): push each stream buffer into the window
heap (a push error aborts the run), then pop and send every pending
output; `Vec::pop` hands the pending outputs back in reverse production
order. Returns the final heap, final partition index and emitted
events. -/
def sinkerMainLoop (P : Nat) :
    List GridBuffer → WindowHeap → Nat → Except String (WindowHeap × Nat × List SinkEvent)
  | [], wh, pidx => Except.ok (wh, pidx, [])
  | gb :: rest, wh, pidx =>
    match push wh gb with
    | (_, some e) => Except.error e
    | (wh1, none) =>
      let popped := wh1.core.outGridbuffers.reverse
      let wh2 := { wh1 with core := { wh1.core with outGridbuffers := [] } }
      match sinkerSendLoop P popped pidx with
      | Except.error e => Except.error e
      | Except.ok (pidx1, evs1) =>
        match sinkerMainLoop P rest wh2 pidx1 with
        | Except.error e => Except.error e
        | Except.ok (whf, pf, evs2) => Except.ok (whf, pf, evs1 ++ evs2)

/-- `GridSinker::run` (grid_sinker.rs lines 137-264) at the granularity of
its RPC event trace, for an already-decoded input stream: error on an
empty stream; the first buffer determines the first partition index and is
sent directly (it never enters the heap); the remaining buffers go through
the `WindowHeap(2, 4)` loop; after the stream ends a single
`finish_sink_partition` is emitted - the source contains no heap drain at
stream end. Returns the event trace and the final heap state. -/
def gridSinkerRun (inputs : List GridBuffer) (P : Nat) :
    Except String (List SinkEvent × WindowHeap) :=
  match inputs with
  | [] => Except.error "No gridbuffer found"
  | first :: rest =>
    match getPartitionIndexByTimestamp first P with
    | none => Except.error "Failed to get partition index"
    | some pidx0 =>
      match sinkerMainLoop P rest (WindowHeap.new 2 4) pidx0 with
      | Except.error e => Except.error e
      | Except.ok (whf, pf, evs) =>
        Except.ok ([SinkEvent.start pidx0, SinkEvent.sink pidx0 first] ++ evs
                     ++ [SinkEvent.finish pf], whf)

/-- Character-level test that `pat` is an initial segment of `s`. -/
def charsStartWith : List Char → List Char → Bool
  | [], _ => true
  | _ :: _, [] => false
  | p :: ps, c :: cs => p = c && charsStartWith ps cs

/-- Left-to-right non-overlapping replacement of every occurrence of
`pat` by `rep`, as Rust's `str::replace` performs for a non-empty
pattern. The fuel argument (instantiated with the string length) only
makes the recursion structural; each step consumes at least one input
character, so the fuel never runs out. -/
def replaceAllFuel (pat rep : List Char) : Nat → List Char → List Char
  | 0, s => s
  | _ + 1, [] => []
  | fuel + 1, c :: cs =>
    if pat ≠ [] && charsStartWith pat (c :: cs) then
      rep ++ replaceAllFuel pat rep fuel ((c :: cs).drop pat.length)
    else c :: replaceAllFuel pat rep fuel cs

/-- `path_sorted` (sample_saver.rs line 113):
`path.replace("droplet", "droplet_sorted")`. -/
def pathSorted (path : String) : String :=
  String.mk (replaceAllFuel "droplet".data "droplet_sorted".data path.data.length path.data)

/-- `SampleSaver::write_success_file` (sample_saver.rs lines 220-230):
error on an empty path, otherwise create the single empty file
`{path}/SUCCESS`. The result lists the files the call creates. -/
def writeSuccessFileCreates (path : String) : Except String (List String) :=
  if path = "" then Except.error "path is empty"
  else Except.ok [path ++ "/SUCCESS"]

/-- Files created by `SampleSaver::merge_sort` (sample_saver.rs lines
242-356), abstracted by the number of output-file rollovers `rolls`
performed in `process_out_gridbuffers` (lines 358-388): the merge creates
`{path_sorted}/0.grid` up front and `{path_sorted}/{i}.grid` at each
rollover; it creates no other file. -/
def mergeSortCreatedFiles (path : String) (rolls : Nat) : List String :=
  (List.range (rolls + 1)).map (fun i => pathSorted path ++ "/" ++ toString i ++ ".grid")

/-- Files created by the success path of
`DropletServerImpl::finish_sink_partition` (request_handler.rs lines
146-194) when the last registered sinker finishes, every worker reaches
`Success` and `merge_sort` returns `Ok`: the handler removes the sinker,
closes the channel, waits for the workers, runs `merge_sort` and drops the
saver - the only files created are those of `merge_sort`; no code path of
the repository calls `write_success_file`. -/
def finishSinkPartitionCreatedFiles (path : String) (rolls : Nat) : List String :=
  mergeSortCreatedFiles path rolls

/-! Concrete inputs and results for the claims. -/

/-- Final heap state of the C1 run: `WindowHeap(W = 2, B = 1)`, three
single-row buffers with timestamps 1, 2, 3, then drain. Every pair of
concurrently-resident buffers has key distance at most `W × max_rows = 2`,
so the run satisfies the claim's skew hypothesis. -/
def c1Final : WindowHeap :=
  processRemainData (pushList (WindowHeap.new 2 1) [mkKeyBuf 1, mkKeyBuf 2, mkKeyBuf 3])

/-- All row timestamps of the concatenated outputs of the C1 run. -/
def c1OutputKeys : List Nat := (c1Final.core.outGridbuffers.map rowTimestamps).flatten

/-- C1: for input streams within the skew bound, the concatenation of the
emitted outputs (drain included) is claimed to be a permutation of the
input rows, sorted by `SampleKey`. The code violates this: the overflow
branch of `push` stores the replacement buffer in the freed slot without
ever inserting its rows into the heap, so those rows are never emitted.
On `WindowHeap(2, 1)` with single-row inputs keyed 1, 2, 3, the emitted
keys after drain are `[1, 2]` - not a permutation of `[1, 2, 3]` (the
third buffer's row is lost). -/
theorem c1_push_drain_not_permutation :
    c1OutputKeys = [1, 2] ∧ ¬ List.Perm c1OutputKeys [1, 2, 3] ∧ c1Final.heap = [] := by
  refine ⟨by decide, ?_, by decide⟩
  intro hp
  have hl := hp.length_eq
  have h2 : c1OutputKeys.length = 2 := by decide
  simp at hl
  omega

/-- State of the C2 run after three pushes into `WindowHeap(W = 2, B = 2)`
of single-row buffers keyed 1, 2, 3: the third push overflows, stages the
key-1 row and reuses slot 0. -/
def c2Wh3 : WindowHeap :=
  pushList (WindowHeap.new 2 2) [mkKeyBuf 1, mkKeyBuf 2, mkKeyBuf 3]

/-- State of the C2 run after the fourth push (key 4), which flushes the
stage. -/
def c2Wh4 : WindowHeap := (push c2Wh3 (mkKeyBuf 4)).1

/-- C2: the claim says a slot is reused only after every reference to it
(heap entries AND staged rows) is gone, so references stay live. The code
violates the staged-row half: after the third push the output stage still
holds the row popped from slot 0 (created from the buffer of push 1,
ghost origin 1), while slot 0 already holds the buffer of push 3 (ghost
origin 3). When the fourth push flushes the stage, the stale reference
materializes the replacing buffer's row: the emitted batch carries keys
`[3, 2]` instead of the popped rows `[1, 2]`. -/
theorem c2_staged_reference_outlives_slot :
    c2Wh3.core.gridrows = [{ slot := 0, row := 0, origin := 1 }] ∧
      c2Wh3.core.elemOrigins[0]? = some 3 ∧ (1 : Nat) ≠ 3 ∧
      c2Wh4.core.outGridbuffers.map rowTimestamps = [[3, 2]] := by
  decide

/-- Final state of the C3 scenario: `WindowHeap(W = 3, B = 2)`, push three
single-row buffers with timestamps 1, 3, 2, then drain. -/
def c3Final : WindowHeap :=
  processRemainData (pushList (WindowHeap.new 3 2) [mkKeyBuf 1, mkKeyBuf 3, mkKeyBuf 2])

/-- C3: the drain operation (`process_remain_data`, modelled from the
spec's drain contract) pops heap minima into the stage, materializes a
batch at `B` rows, emits one final shorter batch, and leaves the heap
empty; on the claim's example - three single-row buffers with timestamps
1, 3, 2 into `WindowHeap(3, 2)` - the produced outputs are `[t=1, t=2]`
then `[t=3]`, the heap and the stage end empty. -/
theorem c3_drain_scenario :
    c3Final.core.outGridbuffers.map rowTimestamps = [[1, 2], [3]] ∧
      c3Final.heap = [] ∧ c3Final.core.gridrows = [] := by
  decide

/-- State of the C4 run: `WindowHeap(W = 2, B = 1)` after pushing four
single-row buffers keyed 1, 2, 3, 4; two output buffers (keys 1 and 2, in
production order) are pending. -/
def c4Wh : WindowHeap :=
  pushList (WindowHeap.new 2 1) [mkKeyBuf 1, mkKeyBuf 2, mkKeyBuf 3, mkKeyBuf 4]

/-- C4 counterexample: with two pending outputs produced in order
key 1 then key 2, `get_out_gridbuffer` returns the key-2 buffer - the most
recently produced, not the earliest-produced as the claim states
(`out_gridbuffers.pop()` takes the back of the `Vec`). -/
theorem c4_fifo_counterexample :
    c4Wh.core.outGridbuffers.map rowTimestamps = [[1], [2]] ∧
      ((getOutGridbuffer c4Wh).1.map rowTimestamps) = some [2] ∧
      (getOutGridbuffer c4Wh).1 ≠ c4Wh.core.outGridbuffers.head? := by
  decide

/-- Helper: repeatedly `Vec::pop`-ping a list yields its reverse. -/
theorem popObserved_eq_reverse (l : List GridBuffer) : popObserved l = l.reverse := by
  induction l using List.reverseRecOn with
  | nil =>
    rw [popObserved]
    rfl
  | append_singleton as a ih =>
    rw [popObserved]
    simp only [List.dropLast_concat, ih]
    split
    · rename_i hnone
      rw [List.getLast?_concat] at hnone
      exact absurd hnone (by simp)
    · rename_i x hx
      rw [List.getLast?_concat] at hx
      have hxa : a = x := Option.some.inj hx
      subst hxa
      simp

/-- C4 amended: pending outputs are handed to the caller in REVERSE
production order - `get_out_gridbuffer` returns the most recently
produced pending buffer, and a caller loop that pops until exhaustion
observes exactly the reverse of the production sequence. -/
theorem c4_outputs_lifo (wh : WindowHeap) :
    (getOutGridbuffer wh).1 = wh.core.outGridbuffers.getLast? ∧
      popObserved wh.core.outGridbuffers = wh.core.outGridbuffers.reverse := by
  constructor
  · cases h : wh.core.outGridbuffers.getLast? <;> simp [getOutGridbuffer, h]
  · exact popObserved_eq_reverse _

/-- C5: on the success path of `finish_sink_partition` (last sinker done,
workers `Success`, `merge_sort` ok with, here, three output-file
rollovers) the set of files the server creates contains no `SUCCESS`
sentinel - the file that `write_success_file` would create is not among
them, because no code path calls `write_success_file`. -/
theorem c5_no_success_file_created :
    writeSuccessFileCreates "/tmp/droplet/tables/t/20240101/0"
        = Except.ok ["/tmp/droplet/tables/t/20240101/0/SUCCESS"] ∧
      "/tmp/droplet/tables/t/20240101/0/SUCCESS"
        ∉ finishSinkPartitionCreatedFiles "/tmp/droplet/tables/t/20240101/0" 3 :=
  ⟨rfl, by decide⟩

/-- C6 counterexample: with `P = 7` partitions and row-0 timestamp 86399
(23:59:59 UTC), the code computes `86399 / (86400 / 7) = 86399 / 12342 =
7`, while the claim's formula gives `floor(86399 × 7 / 86400) = 6`; the
result 7 also falls outside `0..P-1 = 0..6`. -/
theorem c6_partition_index_counterexample :
    getPartitionIndexByTimestamp (mkKeyBuf 86399) 7 = some 7 ∧
      (numSecondsFromMidnight 86399 * 7) / 86400 = 6 ∧
      (7 : Nat) ≠ 6 ∧ ¬ (7 : Nat) ≤ 6 := by
  decide

/-- Boundary behaviour of the embedded partition-index computation,
matching grid_sinker.rs lines 114-118 at the edges of the timestamp
conversion: a row-0 timestamp of `10^13` lies beyond chrono's datetime
ceiling, so the computation errors; a timestamp of `2^64 - 1` wraps
through the `as i64` cast to `-1` (23:59:59 UTC of 1969-12-31) and yields
index 23 of `P = 24`. -/
theorem getPartitionIndex_boundary :
    getPartitionIndexByTimestamp (mkKeyBuf (10 ^ 13)) 24 = none ∧
      getPartitionIndexByTimestamp (mkKeyBuf (2 ^ 64 - 1)) 24 = some 23 := by
  decide

/-- C6 amended: for a non-empty buffer whose row-0 timestamp lies within
chrono's datetime range (at most 8210298412799; beyond it the code errors
or, past `2^63`, wraps through the `i64` cast), the sinker's partition
index is `floor(seconds_since_midnight / floor(86400 / P))`; whenever `P`
also divides 86400 this coincides with the claimed
`floor(seconds_since_midnight × P / 86400)` and always lies below `P`. -/
theorem c6_partition_index_when_P_divides (gb : GridBuffer) (P : Nat)
    (hP : 0 < P) (hdvd : P ∣ 86400)
    (hts : (getSampleKey gb 0).timestamp ≤ 8210298412799)
    (hrows : 0 < numRows gb) :
    getPartitionIndexByTimestamp gb P
        = some ((numSecondsFromMidnight (getSampleKey gb 0).timestamp * P) / 86400) ∧
      ∀ k, getPartitionIndexByTimestamp gb P = some k → k < P := by
  have hPle : P ≤ 86400 := Nat.le_of_dvd (by norm_num) hdvd
  have hspan : 0 < 86400 / P := Nat.div_pos hPle hP
  have hmul : 86400 / P * P = 86400 := Nat.div_mul_cancel hdvd
  have hs : numSecondsFromMidnight (getSampleKey gb 0).timestamp < 86400 :=
    Nat.mod_lt _ (by norm_num)
  have key : numSecondsFromMidnight (getSampleKey gb 0).timestamp / (86400 / P)
      = numSecondsFromMidnight (getSampleKey gb 0).timestamp * P / 86400 := by
    conv_rhs => rw [← hmul]
    rw [Nat.mul_div_mul_right _ _ hP]
  have hwrap : i64OfU64 (getSampleKey gb 0).timestamp
      = ((getSampleKey gb 0).timestamp : Int) := by
    unfold i64OfU64
    rw [Nat.mod_eq_of_lt (by omega), if_pos (by omega)]
  have hsec : fromTimestampSecondsFromMidnight ((getSampleKey gb 0).timestamp : Int)
      = some (numSecondsFromMidnight (getSampleKey gb 0).timestamp) := by
    unfold fromTimestampSecondsFromMidnight chronoMinTimestamp chronoMaxTimestamp
      numSecondsFromMidnight
    rw [if_pos (by constructor <;> omega)]
    congr 1
  have hform : getPartitionIndexByTimestamp gb P
      = some (numSecondsFromMidnight (getSampleKey gb 0).timestamp / (86400 / P)) := by
    simp only [getPartitionIndexByTimestamp, hwrap, hsec]
    rw [if_neg (by omega), if_neg (by omega)]
  constructor
  · rw [hform, key]
  · intro k hk
    rw [hform] at hk
    have hk2 := Option.some.inj hk
    subst hk2
    have := (Nat.div_lt_iff_lt_mul hspan).mpr (by rw [Nat.mul_comm P (86400 / P), hmul]; exact hs)
    exact this

/-- Closed instance of the C6 amended theorem: `P = 24`, row-0 timestamp
32400 (09:00:00 UTC, within chrono's range) gives partition index 9. -/
theorem c6_partition_index_witness :
    getPartitionIndexByTimestamp (mkKeyBuf 32400) 24
        = some ((numSecondsFromMidnight (getSampleKey (mkKeyBuf 32400) 0).timestamp * 24) / 86400) ∧
      ∀ k, getPartitionIndexByTimestamp (mkKeyBuf 32400) 24 = some k → k < 24 :=
  c6_partition_index_when_P_divides (mkKeyBuf 32400) 24 (by norm_num) (by norm_num)
    (by decide) (by decide)

/-- The C7 run: a two-buffer input stream (row-0 timestamps 100 and 200,
both in partition 0 of `P = 1`) through `GridSinker::run`. -/
def c7Run : Except String (List SinkEvent × WindowHeap) :=
  gridSinkerRun [mkKeyBuf 100, mkKeyBuf 200] 1

/-- C7: after the input stream is exhausted the claim requires the window
heap to be drained and its rows sent before the final
`finish_sink_partition`. The code does neither: on a two-buffer stream
the emitted trace is `start 0, sink(first buffer), finish 0` - the second
buffer (pushed into the heap, whose row is still in the heap: final heap
length 1, no pending or staged outputs) is never sent before the last
partition closes. -/
theorem c7_heap_rows_unsent_at_finish :
    c7Run.toOption.map
        (fun r => (r.1, r.2.heap.length, r.2.core.outGridbuffers.length, r.2.core.gridrows.length))
      = some ([SinkEvent.start 0, SinkEvent.sink 0 (mkKeyBuf 100), SinkEvent.finish 0], 1, 0, 0) := by
  decide

/-- A buffer whose first four column ids are not the sample-key ids. -/
def c8Buf : GridBuffer :=
  { colIds := [9, 9, 9, 9]
    colIdsHash := 5
    cells := [[some (GridCell.u64Cell [1]), some (GridCell.u64Cell [2]),
               some (GridCell.u64Cell [3]), some (GridCell.u64Cell [4])]] }

/-- C8: the claim says a buffer whose first four columns are not
`timestamp, user_id, item_id, request_id` is rejected with an error at
ingress of the sort path. The code performs no such check:
`WindowHeap::push` accepts this invalid buffer (`is_valid_sample` is
false for it, yet push returns no error and inserts its row into the
heap) - `is_valid_sample` has no caller anywhere in the repository. -/
theorem c8_invalid_sample_accepted :
    isValidSample c8Buf = false ∧
      (push (WindowHeap.new 2 4) c8Buf).2 = none ∧
      (push (WindowHeap.new 2 4) c8Buf).1.heap.length = 1 := by
  decide

/-- A buffer with the sample-key columns and col-ids hash 77. -/
def c9B1 : GridBuffer :=
  { colIds := [2, 4, 5, 6]
    colIdsHash := 77
    cells := [[some (GridCell.u64Cell [1]), some (GridCell.u64Cell [2]),
               some (GridCell.u64Cell [3]), some (GridCell.u64Cell [4])]] }

/-- Heap state after accepting `GridBuffer::new()` (empty column list,
hash 0) as the first buffer. -/
def c9S1 : WindowHeap := (push (WindowHeap.new 3 4) GridBuffer.new).1

/-- C9 counterexample: when the first accepted buffer has an empty column
list (such as `GridBuffer::new()`, hash 0), the captured `col_ids` stays
empty, so the next push RE-captures `col_ids` and hash from the incoming
buffer instead of comparing: a buffer with hash 77 ≠ 0 is accepted
without error and the state changes, contradicting the claim. -/
theorem c9_hash_mismatch_counterexample :
    (push (WindowHeap.new 3 4) GridBuffer.new).2 = none ∧
      c9S1.colIdsHash = 0 ∧ c9B1.colIdsHash = 77 ∧ (77 : Nat) ≠ 0 ∧
      (push c9S1 c9B1).2 = none ∧ (push c9S1 c9B1).1 ≠ c9S1 := by
  decide

/-- C9 amended: provided the captured `col_ids` list is non-empty, a push
whose `col_ids_hash` differs from the captured hash returns an error and
leaves the heap state (slots, heap entries, counters, stage, pending
outputs, captured ids and hash) completely unchanged. -/
theorem c9_hash_mismatch_rejected (wh : WindowHeap) (gb : GridBuffer)
    (hcap : wh.colIds ≠ []) (hh : wh.colIdsHash ≠ gb.colIdsHash) :
    push wh gb = (wh, some "The col_ids is not same") := by
  simp only [push, if_neg hcap, if_pos hh]

/-- Heap state holding one accepted sample buffer (hash 42). -/
def c9WitS : WindowHeap := (push (WindowHeap.new 2 4) (mkKeyBuf 1)).1

/-- A buffer with col-ids hash 99 ≠ 42. -/
def c9WitB : GridBuffer := { colIds := [2, 4, 5, 6], colIdsHash := 99, cells := [] }

/-- Closed instance of the C9 amended theorem: after accepting a hash-42
buffer, pushing a hash-99 buffer errors and leaves the state unchanged. -/
theorem c9_hash_mismatch_rejected_witness :
    (c9WitS.colIds ≠ [] ∧ c9WitS.colIdsHash ≠ c9WitB.colIdsHash) ∧
      push c9WitS c9WitB = (c9WitS, some "The col_ids is not same") :=
  ⟨⟨by decide, by decide⟩, c9_hash_mismatch_rejected c9WitS c9WitB (by decide) (by decide)⟩

/-- C10: extracting the sample key never fails - it is a total function,
and a key column whose cell is absent or holds an `f32` cell (not a u64)
contributes the value 0 to the corresponding key field, so such a row is
sorted as if that field were 0. -/
theorem c10_missing_key_field_is_zero (gb : GridBuffer) (row i : Nat) (hi : i < 4)
    (h : getCell gb row i = none ∨ ∃ vs, getCell gb row i = some (GridCell.f32Cell vs)) :
    keyField (getSampleKey gb row) i = 0 := by
  have hnone : getU64 gb row i = none := by
    unfold getU64
    rcases h with h | ⟨vs, h⟩ <;> rw [h]
  interval_cases i <;> simp [getSampleKey, keyField, hnone]

/-- A single-row buffer whose timestamp column holds an `f32` cell and
whose item-id column is absent. -/
def c10Buf : GridBuffer :=
  { colIds := sampleKeyIds
    colIdsHash := 42
    cells := [[some (GridCell.f32Cell [5]), some (GridCell.u64Cell [8]),
               none, some (GridCell.u64Cell [9])]] }

/-- Closed instance of the C10 theorem: the f32-typed timestamp column of
`c10Buf` contributes 0 to the key. -/
theorem c10_missing_key_field_witness :
    ((0 : Nat) < 4 ∧
        (getCell c10Buf 0 0 = none ∨ ∃ vs, getCell c10Buf 0 0 = some (GridCell.f32Cell vs))) ∧
      keyField (getSampleKey c10Buf 0) 0 = 0 :=
  ⟨⟨by decide, Or.inr ⟨[5], rfl⟩⟩,
    c10_missing_key_field_is_zero c10Buf 0 0 (by decide) (Or.inr ⟨[5], rfl⟩)⟩

end Droplet
